import Mathlib

/-!
Formal model of the BitNBuild-25_ALLSTAR personal-finance calculation engine.

The credit-score model is a shallow embedding of the pure functions
`getScoreFactors`, `getRecommendations` and (the computation part of)
`calculateScore` in `src/frontend/src/pages/CIBILAdvisor.jsx`.

Conventions of the embedding:
* Form fields of the React page are strings; an empty string is falsy in
  JavaScript and any non-empty numeric string (including "0") is truthy.
  A numeric field is therefore modelled as `Option ℚ`: `none` is the empty
  string, `some q` a non-empty numeric string with value `q`.
* A date field is modelled as `Option ℤ`: `none` is the empty string,
  `some t` a parsed date with timestamp `t` in milliseconds.  The current
  date (`new Date()` / `Date.now()`) is an explicit parameter `now : ℤ`.
* `(new Date() - new Date(opened)) / (1000*60*60*24*365.25)` becomes
  `(now - t) / 31557600000` in ℚ, and `Date.now() - 365*24*60*60*1000`
  becomes `now - 31536000000`.
* JavaScript number arithmetic is modelled in ℚ; every score update in the
  source subtracts integer constants, and `Math.round` is modelled as
  round-half-up on ℚ (`jsRound`), which is what `Math.round` computes.
-/

/-- One entry of `acc.paymentHistory`: `{ date: '', onTime: true }`. -/
structure PaymentEntry where
  date : Option ℤ
  onTime : Bool
deriving DecidableEq, Repr

/-- A credit account as entered on the CIBIL page:
`{ type: '', opened: '', limit: '', balance: '', paymentHistory: [...] }`. -/
structure Account where
  type : String
  opened : Option ℤ
  limit : Option ℚ
  balance : Option ℚ
  paymentHistory : List PaymentEntry
deriving DecidableEq, Repr

/-- A credit inquiry: `{ date: '', type: '' }`. -/
structure Inquiry where
  date : Option ℤ
  type : String
deriving DecidableEq, Repr

/- ===== Accumulations of the `calculateScore` loop (CIBILAdvisor.jsx 197-222) ===== -/

/-- Late payment events of one account:
`acc.paymentHistory.forEach(ph => { if (ph.date && !ph.onTime) latePayments++ })`. -/
def lateEntries (a : Account) : ℕ :=
  (a.paymentHistory.filter (fun p => p.date.isSome && !p.onTime)).length

/-- `latePayments` accumulated over all accounts inside `calculateScore`. -/
def latePaymentsS (accounts : List Account) : ℕ :=
  (accounts.map lateEntries).sum

/-- The guard `if (acc.limit && acc.balance)`: both form fields non-empty
(JS truthiness of the field strings; "0" is truthy). -/
def includedAccount (a : Account) : Bool :=
  a.limit.isSome && a.balance.isSome

/-- `utilizationSum` accumulated inside `calculateScore`:
`utilizationSum += Number(acc.balance)` under the guard. -/
def utilizationSumS (accounts : List Account) : ℚ :=
  ((accounts.filter includedAccount).map (fun a => a.balance.getD 0)).sum

/-- `limitSum` accumulated inside `calculateScore`:
`limitSum += Number(acc.limit)` under the guard. -/
def limitSumS (accounts : List Account) : ℚ :=
  ((accounts.filter includedAccount).map (fun a => a.limit.getD 0)).sum

/-- `accountAges` accumulated inside `calculateScore`: for each account with a
non-empty `opened`, push `(new Date() - new Date(acc.opened)) / (1000*60*60*24*365.25)`. -/
def accountAgesS (now : ℤ) (accounts : List Account) : List ℚ :=
  accounts.filterMap (fun a => a.opened.map (fun t => ((now - t : ℤ) : ℚ) / 31557600000))

/-- `mix.size` inside `calculateScore`: `mix` is a JS `Set` receiving every
`acc.type`, so its size is the number of distinct type strings. -/
def mixSizeS (accounts : List Account) : ℕ :=
  ((accounts.map (fun a => a.type)).dedup).length

/-- `recentInquiries` inside `calculateScore`:
`if (inq.date && new Date(inq.date) > new Date(Date.now() - 365*24*60*60*1000)) recentInquiries++`. -/
def recentInquiriesS (now : ℤ) (inquiries : List Inquiry) : ℕ :=
  (inquiries.filter (fun q =>
    match q.date with
    | some t => decide (now - 31536000000 < t)
    | none => false)).length

/- ===== The score pipeline (CIBILAdvisor.jsx 224-239) ===== -/

/-- `Math.round` on ℚ: round half away from zero is `⌊q + 1/2⌋` for the
values reached here (JavaScript `Math.round(x)` is `⌊x + 0.5⌋`). -/
def jsRound (q : ℚ) : ℤ := ⌊q + 1/2⌋

/-- `let base = 750; if (latePayments > 0) base -= latePayments * 25;`. -/
def scoreAfterLate (late : ℕ) : ℚ :=
  if 0 < late then 750 - (late : ℚ) * 25 else 750

/-- `if (limitSum > 0) { const utilization = utilizationSum / limitSum;
if (utilization > 0.3) base -= 20; else if (utilization > 0.5) base -= 40; }`
— the source's `else if` shape is kept exactly as written. -/
def utilizationStep (base : ℚ) (utilSum limSum : ℚ) : ℚ :=
  if 0 < limSum then
    (let utilization := utilSum / limSum
     if utilization > 3/10 then base - 20
     else if utilization > 1/2 then base - 40
     else base)
  else base

/-- `if (accountAges.length > 0) { const avgAge = ...;
if (avgAge < 2) base -= 15; else if (avgAge < 4) base -= 5; }`. -/
def ageStep (base : ℚ) (ages : List ℚ) : ℚ :=
  if 0 < ages.length then
    (let avgAge := ages.sum / (ages.length : ℚ)
     if avgAge < 2 then base - 15
     else if avgAge < 4 then base - 5
     else base)
  else base

/-- `if (mix.size < 2) base -= 10;`. -/
def mixStep (base : ℚ) (mixSize : ℕ) : ℚ :=
  if mixSize < 2 then base - 10 else base

/-- `if (recentInquiries > 2) base -= 10;`. -/
def inquiryStep (base : ℚ) (recent : ℕ) : ℚ :=
  if 2 < recent then base - 10 else base

/-- The remaining `base` updates of `calculateScore` after the late-payment
penalty, in source order. -/
def scoreBody (base : ℚ) (utilSum limSum : ℚ) (ages : List ℚ)
    (mixSize recent : ℕ) : ℚ :=
  inquiryStep (mixStep (ageStep (utilizationStep base utilSum limSum) ages) mixSize) recent

/-- The score computed by `calculateScore` (CIBILAdvisor.jsx 194-249): the
accumulations over accounts and inquiries, the penalty pipeline, and the
final `Math.max(300, Math.min(900, Math.round(base)))`. -/
def calculateScore (now : ℤ) (accounts : List Account) (inquiries : List Inquiry) : ℤ :=
  max 300 (min 900 (jsRound (scoreBody
    (scoreAfterLate (latePaymentsS accounts))
    (utilizationSumS accounts) (limitSumS accounts)
    (accountAgesS now accounts) (mixSizeS accounts)
    (recentInquiriesS now inquiries))))

/-- C1: the credit score always lies in the closed interval `[300, 900]`. -/
theorem c1_score_in_bounds (now : ℤ) (accounts : List Account) (inquiries : List Inquiry) :
    300 ≤ calculateScore now accounts inquiries ∧ calculateScore now accounts inquiries ≤ 900 := by
  unfold calculateScore
  constructor
  · exact le_max_left _ _
  · exact max_le (by norm_num) (min_le_left _ _)

/- ===== `getScoreFactors` (CIBILAdvisor.jsx 48-100) =====
The function runs its own copy of the same accumulation loop; it is
transcribed separately (suffix `F`) so that its agreement with the
quantities used inside `calculateScore` is a theorem, not a definition. -/

/-- `latePayments` accumulated inside `getScoreFactors` (lines 49, 66-68). -/
def latePaymentsF (accounts : List Account) : ℕ :=
  (accounts.map (fun a =>
    (a.paymentHistory.filter (fun p => p.date.isSome && !p.onTime)).length)).sum

/-- `utilizationSum` accumulated inside `getScoreFactors` (lines 62-65). -/
def utilizationSumF (accounts : List Account) : ℚ :=
  ((accounts.filter (fun a => a.limit.isSome && a.balance.isSome)).map
    (fun a => a.balance.getD 0)).sum

/-- `limitSum` accumulated inside `getScoreFactors` (lines 62-65). -/
def limitSumF (accounts : List Account) : ℚ :=
  ((accounts.filter (fun a => a.limit.isSome && a.balance.isSome)).map
    (fun a => a.limit.getD 0)).sum

/-- `accountAges` accumulated inside `getScoreFactors` (lines 58-61). -/
def accountAgesF (now : ℤ) (accounts : List Account) : List ℚ :=
  accounts.filterMap (fun a => a.opened.map (fun t => ((now - t : ℤ) : ℚ) / 31557600000))

/-- `mix.size` inside `getScoreFactors` (lines 53, 57). -/
def mixSizeF (accounts : List Account) : ℕ :=
  ((accounts.map (fun a => a.type)).dedup).length

/-- `recentInquiries` inside `getScoreFactors` (lines 71-73). -/
def recentInquiriesF (now : ℤ) (inquiries : List Inquiry) : ℕ :=
  (inquiries.filter (fun q =>
    match q.date with
    | some t => decide (now - 31536000000 < t)
    | none => false)).length

/-- Line 75: `const utilization = limitSum > 0 ? utilizationSum / limitSum : 0`. -/
def utilizationF (accounts : List Account) : ℚ :=
  if 0 < limitSumF accounts then utilizationSumF accounts / limitSumF accounts else 0

/-- Line 76: `const avgAge = accountAges.length > 0 ? sum / length : 0`. -/
def avgAgeF (now : ℤ) (accounts : List Account) : ℚ :=
  if 0 < (accountAgesF now accounts).length then
    (accountAgesF now accounts).sum / ((accountAgesF now accounts).length : ℚ)
  else 0

/-- The five `Status` strings returned by `getScoreFactors` (lines 78-99).
The purely presentational strings of the returned object (`Current`,
`AverageAge`, `Accounts`, `Recent` texts) are formatting of the same
quantities and are not part of the model. -/
structure Factors where
  paymentHistoryStatus : String
  creditUtilizationStatus : String
  creditAgeStatus : String
  accountMixStatus : String
  inquiriesStatus : String
deriving DecidableEq, Repr

/-- `getScoreFactors(accounts, inquiries)` (CIBILAdvisor.jsx 48-100). -/
def getScoreFactors (now : ℤ) (accounts : List Account) (inquiries : List Inquiry) : Factors where
  paymentHistoryStatus :=
    if latePaymentsF accounts = 0 then "Good" else "Late Payments"
  creditUtilizationStatus :=
    if utilizationF accounts < 3/10 then "Low"
    else if utilizationF accounts < 1/2 then "Moderate"
    else "High"
  creditAgeStatus :=
    if 4 < avgAgeF now accounts then "Healthy"
    else if 2 < avgAgeF now accounts then "Moderate"
    else "Young"
  accountMixStatus :=
    if 1 < mixSizeF accounts then "Diverse" else "Limited"
  inquiriesStatus :=
    if recentInquiriesF now inquiries ≤ 2 then "Low" else "High"

/- ===== `getRecommendations` (CIBILAdvisor.jsx 102-147) ===== -/

/-- One recommendation object. -/
structure Recommendation where
  title : String
  description : String
  expectedScoreImprovement : ℕ
deriving DecidableEq, Repr

def reduceUtilizationRec : Recommendation :=
  ⟨"Reduce Credit Utilization",
   "Aim To Keep Utilization Below 30% For A Better Score.", 10⟩

def increaseAgeRec : Recommendation :=
  ⟨"Increase Credit Age",
   "Avoid Closing Old Accounts To Maintain A Healthy Average Age.", 8⟩

def diversifyMixRec : Recommendation :=
  ⟨"Diversify Account Mix",
   "Consider Adding A Secured Loan For A More Diverse Profile.", 6⟩

def improvePaymentRec : Recommendation :=
  ⟨"Improve Payment History",
   "Pay All Dues On Time To Avoid Score Penalties.", 15⟩

def limitInquiriesRec : Recommendation :=
  ⟨"Limit Credit Inquiries",
   "Too Many Recent Inquiries Can Lower Your Score.", 5⟩

def maintainHabitsRec : Recommendation :=
  ⟨"Maintain Good Credit Habits",
   "Your Profile Looks Healthy. Keep Up The Good Work!", 0⟩

/-- `getRecommendations(factors)` (CIBILAdvisor.jsx 102-147): one fixed
recommendation is pushed per triggered factor, in source order; if none
triggered, the single maintain-habits recommendation is returned. -/
def getRecommendations (f : Factors) : List Recommendation :=
  let recs : List Recommendation := []
  let recs := if f.creditUtilizationStatus = "High" then recs ++ [reduceUtilizationRec] else recs
  let recs := if f.creditAgeStatus = "Young" then recs ++ [increaseAgeRec] else recs
  let recs := if f.accountMixStatus = "Limited" then recs ++ [diversifyMixRec] else recs
  let recs := if f.paymentHistoryStatus = "Late Payments" then recs ++ [improvePaymentRec] else recs
  let recs := if f.inquiriesStatus = "High" then recs ++ [limitInquiriesRec] else recs
  if recs.length = 0 then [maintainHabitsRec] else recs

/- ===== Claims about the credit score model ===== -/

/-- C10: `getScoreFactors` and `calculateScore` each re-derive the same
quantities from the same accounts, inquiries and current date: the late
payment count, the utilization sums and the aggregate utilization ratio,
the account ages and their average, the distinct account-type count, and
the trailing-365-day inquiry count agree between the two functions. -/
theorem c10_factors_agree_with_score (now : ℤ) (accounts : List Account) (inquiries : List Inquiry) :
    latePaymentsF accounts = latePaymentsS accounts ∧
    utilizationSumF accounts = utilizationSumS accounts ∧
    limitSumF accounts = limitSumS accounts ∧
    utilizationF accounts =
      (if 0 < limitSumS accounts then utilizationSumS accounts / limitSumS accounts else 0) ∧
    accountAgesF now accounts = accountAgesS now accounts ∧
    avgAgeF now accounts =
      (if 0 < (accountAgesS now accounts).length then
        (accountAgesS now accounts).sum / ((accountAgesS now accounts).length : ℚ) else 0) ∧
    mixSizeF accounts = mixSizeS accounts ∧
    recentInquiriesF now inquiries = recentInquiriesS now inquiries :=
  ⟨rfl, rfl, rfl, rfl, rfl, rfl, rfl, rfl⟩

/-- C6: the scoring run is deterministic — equal account lists, equal inquiry
lists and the same current date give the same score, factor statuses and
recommendation list. -/
theorem c6_deterministic (now₁ now₂ : ℤ) (a₁ a₂ : List Account) (i₁ i₂ : List Inquiry)
    (hn : now₁ = now₂) (ha : a₁ = a₂) (hi : i₁ = i₂) :
    calculateScore now₁ a₁ i₁ = calculateScore now₂ a₂ i₂ ∧
    getScoreFactors now₁ a₁ i₁ = getScoreFactors now₂ a₂ i₂ ∧
    getRecommendations (getScoreFactors now₁ a₁ i₁) =
      getRecommendations (getScoreFactors now₂ a₂ i₂) := by
  subst hn; subst ha; subst hi
  exact ⟨rfl, rfl, rfl⟩

/-- Witness for C6 at a concrete input. -/
theorem c6_deterministic_witness :
    calculateScore 0 [] [] = calculateScore 0 [] [] ∧
    getScoreFactors 0 [] [] = getScoreFactors 0 [] [] ∧
    getRecommendations (getScoreFactors 0 [] []) =
      getRecommendations (getScoreFactors 0 [] []) :=
  c6_deterministic 0 0 [] [] [] [] rfl rfl rfl

/-- Number of factors whose status triggers a recommendation (the statuses
below "good" in the rule table of `getRecommendations`). -/
def belowGoodCount (f : Factors) : ℕ :=
  (if f.creditUtilizationStatus = "High" then 1 else 0) +
  (if f.creditAgeStatus = "Young" then 1 else 0) +
  (if f.accountMixStatus = "Limited" then 1 else 0) +
  (if f.paymentHistoryStatus = "Late Payments" then 1 else 0) +
  (if f.inquiriesStatus = "High" then 1 else 0)

/-- Case analysis of `getRecommendations` over the five trigger conditions. -/
theorem getRecommendations_cases (f : Factors) :
    getRecommendations f ≠ [] ∧
    (getRecommendations f).length = max 1 (belowGoodCount f) ∧
    (f.creditUtilizationStatus = "High" ↔ reduceUtilizationRec ∈ getRecommendations f) ∧
    (f.creditAgeStatus = "Young" ↔ increaseAgeRec ∈ getRecommendations f) ∧
    (f.accountMixStatus = "Limited" ↔ diversifyMixRec ∈ getRecommendations f) ∧
    (f.paymentHistoryStatus = "Late Payments" ↔ improvePaymentRec ∈ getRecommendations f) ∧
    (f.inquiriesStatus = "High" ↔ limitInquiriesRec ∈ getRecommendations f) ∧
    (belowGoodCount f = 0 → getRecommendations f = [maintainHabitsRec]) := by
  by_cases h1 : f.creditUtilizationStatus = "High" <;>
  by_cases h2 : f.creditAgeStatus = "Young" <;>
  by_cases h3 : f.accountMixStatus = "Limited" <;>
  by_cases h4 : f.paymentHistoryStatus = "Late Payments" <;>
  by_cases h5 : f.inquiriesStatus = "High" <;>
  norm_num [getRecommendations, belowGoodCount, h1, h2, h3, h4, h5,
    reduceUtilizationRec, increaseAgeRec, diversifyMixRec, improvePaymentRec,
    limitInquiriesRec, maintainHabitsRec, List.cons_ne_nil]

/-- C4: for every account and inquiry list, `getRecommendations` over
`getScoreFactors` returns a non-empty list with exactly one recommendation
per factor whose status is below good (the trigger statuses of the rule
table), and exactly the single maintain-habits recommendation — whose
expected point gain is 0 — when no factor is below good. -/
theorem c4_recommendation_shape (now : ℤ) (accounts : List Account) (inquiries : List Inquiry) :
    getRecommendations (getScoreFactors now accounts inquiries) ≠ [] ∧
    (getRecommendations (getScoreFactors now accounts inquiries)).length =
      max 1 (belowGoodCount (getScoreFactors now accounts inquiries)) ∧
    ((getScoreFactors now accounts inquiries).creditUtilizationStatus = "High" ↔
      reduceUtilizationRec ∈ getRecommendations (getScoreFactors now accounts inquiries)) ∧
    ((getScoreFactors now accounts inquiries).creditAgeStatus = "Young" ↔
      increaseAgeRec ∈ getRecommendations (getScoreFactors now accounts inquiries)) ∧
    ((getScoreFactors now accounts inquiries).accountMixStatus = "Limited" ↔
      diversifyMixRec ∈ getRecommendations (getScoreFactors now accounts inquiries)) ∧
    ((getScoreFactors now accounts inquiries).paymentHistoryStatus = "Late Payments" ↔
      improvePaymentRec ∈ getRecommendations (getScoreFactors now accounts inquiries)) ∧
    ((getScoreFactors now accounts inquiries).inquiriesStatus = "High" ↔
      limitInquiriesRec ∈ getRecommendations (getScoreFactors now accounts inquiries)) ∧
    (belowGoodCount (getScoreFactors now accounts inquiries) = 0 →
      getRecommendations (getScoreFactors now accounts inquiries) = [maintainHabitsRec]) ∧
    maintainHabitsRec.expectedScoreImprovement = 0 := by
  have h := getRecommendations_cases (getScoreFactors now accounts inquiries)
  exact ⟨h.1, h.2.1, h.2.2.1, h.2.2.2.1, h.2.2.2.2.1, h.2.2.2.2.2.1,
    h.2.2.2.2.2.2.1, h.2.2.2.2.2.2.2, rfl⟩

/-- C5: whenever the input has 3 late payment events and aggregate
utilization 60%, the recommendation list contains both the
reduce-utilization and the improve-payment-history recommendations,
and is in particular non-empty. -/
theorem c5_late_and_high_utilization (now : ℤ) (accounts : List Account) (inquiries : List Inquiry)
    (hl : latePaymentsF accounts = 3) (hu : utilizationF accounts = 3/5) :
    reduceUtilizationRec ∈ getRecommendations (getScoreFactors now accounts inquiries) ∧
    improvePaymentRec ∈ getRecommendations (getScoreFactors now accounts inquiries) ∧
    getRecommendations (getScoreFactors now accounts inquiries) ≠ [] := by
  have h := getRecommendations_cases (getScoreFactors now accounts inquiries)
  have hhigh : (getScoreFactors now accounts inquiries).creditUtilizationStatus = "High" := by
    norm_num [getScoreFactors, hu]
  have hlate : (getScoreFactors now accounts inquiries).paymentHistoryStatus = "Late Payments" := by
    norm_num [getScoreFactors, hl]
  exact ⟨h.2.2.1.mp hhigh, h.2.2.2.2.2.1.mp hlate, h.1⟩

/-- A concrete account with 3 late payment events, limit 100 and balance 60. -/
def acctC5 : Account :=
  ⟨"Credit Card", none, some 100, some 60,
   [⟨some 1, false⟩, ⟨some 2, false⟩, ⟨some 3, false⟩]⟩

/-- Witness for C5 at the concrete input `[acctC5]`. -/
theorem c5_late_and_high_utilization_witness :
    (latePaymentsF [acctC5] = 3 ∧ utilizationF [acctC5] = 3/5) ∧
    (reduceUtilizationRec ∈ getRecommendations (getScoreFactors 0 [acctC5] []) ∧
     improvePaymentRec ∈ getRecommendations (getScoreFactors 0 [acctC5] []) ∧
     getRecommendations (getScoreFactors 0 [acctC5] []) ≠ []) :=
  ⟨⟨by norm_num [latePaymentsF, acctC5],
    by norm_num [utilizationF, utilizationSumF, limitSumF, acctC5]⟩,
   c5_late_and_high_utilization 0 [acctC5] []
     (by norm_num [latePaymentsF, acctC5])
     (by norm_num [utilizationF, utilizationSumF, limitSumF, acctC5])⟩

/-- C7 counterexample: with both lists empty the score is 740, not the
baseline 750 — the 10-point limited-mix penalty fires because an empty
account list has 0 distinct account types, which is below 2. -/
theorem c7_counterexample :
    calculateScore 0 [] [] = 740 ∧ calculateScore 0 [] [] ≠ 750 := by
  have h : calculateScore 0 [] [] = 740 := by
    norm_num [calculateScore, latePaymentsS, utilizationSumS, limitSumS, accountAgesS,
      mixSizeS, recentInquiriesS, scoreAfterLate, scoreBody, utilizationStep,
      ageStep, mixStep, inquiryStep, jsRound]
  exact ⟨h, by rw [h]; norm_num⟩

/-- C7 amended: for every current date, empty account and inquiry lists give
the score 740 = 750 − 10: only the limited-account-mix penalty applies. -/
theorem c7_empty_input_score (now : ℤ) :
    calculateScore now [] [] = 750 - 10 := by
  norm_num [calculateScore, latePaymentsS, utilizationSumS, limitSumS, accountAgesS,
    mixSizeS, recentInquiriesS, scoreAfterLate, scoreBody, utilizationStep,
    ageStep, mixStep, inquiryStep, jsRound]

/-- A concrete account with aggregate utilization 60%: limit 100, balance 60. -/
def acctUtil60 : Account := ⟨"Credit Card", none, some 100, some 60, []⟩

/-- C2 counterexample: at aggregate utilization 60/100 the utilization step
of `calculateScore` subtracts 20 points, not the 20 + 40 the additive-tier
claim demands — the `else if (utilization > 0.5) base -= 40` branch sits
behind the weaker `utilization > 0.3` test and is unreachable. -/
theorem c2_counterexample :
    utilizationStep 750 60 100 = 750 - 20 ∧
    utilizationStep 750 60 100 ≠ 750 - (20 + 40) := by
  constructor <;> norm_num [utilizationStep]

/-- C2 amended: whenever the limit sum is positive and the aggregate
utilization exceeds 50% (so that both tiers of the claim are breached), the
utilization step subtracts exactly the 20-point >30% tier penalty and
nothing more. -/
theorem c2_utilization_penalty_single_tier (base u l : ℚ) (hl : 0 < l)
    (hu : u / l > 1/2) : utilizationStep base u l = base - 20 := by
  have h3 : u / l > 3/10 := by linarith
  unfold utilizationStep
  rw [if_pos hl]
  dsimp only
  rw [if_pos h3]

/-- Witness for the amended C2 at limit 100, balance 60. -/
theorem c2_utilization_penalty_single_tier_witness :
    ((0:ℚ) < 100 ∧ (60:ℚ) / 100 > 1/2) ∧ utilizationStep 750 60 100 = 750 - 20 :=
  ⟨⟨by norm_num, by norm_num⟩,
   c2_utilization_penalty_single_tier 750 60 100 (by norm_num) (by norm_num)⟩

/-- The aggregate utilization as claim C3 words it: Σ balances / Σ limits
taken over every account except those with zero credit limit (a missing
numeric field reads as the amount 0, as in the spec data model where
`credit_limit` and `current_balance` are plain Money values). -/
def claimUtilization (accounts : List Account) : ℚ :=
  let included := accounts.filter (fun a => !(decide (a.limit.getD 0 = 0)))
  let den := (included.map (fun a => a.limit.getD 0)).sum
  let num := (included.map (fun a => a.balance.getD 0)).sum
  if 0 < den then num / den else 0

/-- Concrete account list separating the code's inclusion rule (both fields
non-empty) from the claim's rule (non-zero limit): an ordinary account, an
account with an entered zero limit and a balance of 500, and an account with
a positive limit but an empty balance field. -/
def acctsMixedFields : List Account :=
  [⟨"Credit Card", none, some 100, some 50, []⟩,
   ⟨"Home Loan", none, some 0, some 500, []⟩,
   ⟨"Auto Loan", none, some 200, none, []⟩]

/-- C3 counterexample: the code's aggregate utilization is 550/100 = 11/2
(the zero-limit account is included, the empty-balance account excluded),
while the claim's formula gives 50/300 = 1/6. -/
theorem c3_counterexample :
    utilizationF acctsMixedFields = 11/2 ∧ claimUtilization acctsMixedFields = 1/6 ∧
    utilizationF acctsMixedFields ≠ claimUtilization acctsMixedFields := by
  refine ⟨?_, ?_, ?_⟩ <;>
  norm_num [utilizationF, utilizationSumF, limitSumF, claimUtilization, acctsMixedFields]

/-- C3 amended: the utilization sums range over the accounts whose limit and
balance form fields are both non-empty.  An account with entered limit `l`
and entered balance `b` — in particular an entered zero balance — contributes
`b` to the numerator and `l` to the denominator (even when `l` is zero),
while an account whose balance field is empty contributes nothing, however
large its limit. -/
theorem c3_inclusion_rule (ty : String) (op : Option ℤ) (ph : List PaymentEntry)
    (l b : ℚ) (rest : List Account) :
    (utilizationSumF ((⟨ty, op, some l, some b, ph⟩ : Account) :: rest) =
        b + utilizationSumF rest ∧
     limitSumF ((⟨ty, op, some l, some b, ph⟩ : Account) :: rest) =
        l + limitSumF rest) ∧
    (utilizationSumF ((⟨ty, op, some l, none, ph⟩ : Account) :: rest) =
        utilizationSumF rest ∧
     limitSumF ((⟨ty, op, some l, none, ph⟩ : Account) :: rest) =
        limitSumF rest) := by
  norm_num [utilizationSumF, limitSumF]

/- ===== C8: adding a late payment event never raises the score ===== -/

/-- Add one late payment event (a recorded date `d`, `onTime = false`) to the
payment history of the account at position `n`. -/
def addLateAt (d : ℤ) : ℕ → List Account → List Account
  | _, [] => []
  | 0, a :: rest =>
      (⟨a.type, a.opened, a.limit, a.balance, ⟨some d, false⟩ :: a.paymentHistory⟩ : Account) :: rest
  | n + 1, a :: rest => a :: addLateAt d n rest

theorem latePaymentsS_addLateAt (d : ℤ) (n : ℕ) (accounts : List Account)
    (h : n < accounts.length) :
    latePaymentsS (addLateAt d n accounts) = latePaymentsS accounts + 1 := by
  induction accounts generalizing n with
  | nil => simp at h
  | cons a rest ih =>
    cases n with
    | zero =>
      simp [addLateAt, latePaymentsS, lateEntries, List.filter_cons]
      omega
    | succ m =>
      have hm : m < rest.length := by simpa using h
      have := ih m hm
      simp only [addLateAt, latePaymentsS, List.map_cons, List.sum_cons] at this ⊢
      omega

theorem utilizationSumS_addLateAt (d : ℤ) (n : ℕ) (accounts : List Account) :
    utilizationSumS (addLateAt d n accounts) = utilizationSumS accounts := by
  induction accounts generalizing n with
  | nil => simp [addLateAt]
  | cons a rest ih =>
    cases n with
    | zero =>
      cases hb : a.limit.isSome && a.balance.isSome <;>
        simp [addLateAt, utilizationSumS, List.filter_cons, includedAccount, hb]
    | succ m =>
      cases hb : a.limit.isSome && a.balance.isSome <;>
        simp [addLateAt, utilizationSumS, List.filter_cons, includedAccount, hb] <;>
        simpa [utilizationSumS, includedAccount] using ih m

theorem limitSumS_addLateAt (d : ℤ) (n : ℕ) (accounts : List Account) :
    limitSumS (addLateAt d n accounts) = limitSumS accounts := by
  induction accounts generalizing n with
  | nil => simp [addLateAt]
  | cons a rest ih =>
    cases n with
    | zero =>
      cases hb : a.limit.isSome && a.balance.isSome <;>
        simp [addLateAt, limitSumS, List.filter_cons, includedAccount, hb]
    | succ m =>
      cases hb : a.limit.isSome && a.balance.isSome <;>
        simp [addLateAt, limitSumS, List.filter_cons, includedAccount, hb] <;>
        simpa [limitSumS, includedAccount] using ih m

theorem accountAgesS_addLateAt (now : ℤ) (d : ℤ) (n : ℕ) (accounts : List Account) :
    accountAgesS now (addLateAt d n accounts) = accountAgesS now accounts := by
  induction accounts generalizing n with
  | nil => simp [addLateAt]
  | cons a rest ih =>
    cases n with
    | zero => simp [addLateAt, accountAgesS, List.filterMap_cons]
    | succ m =>
      simp only [addLateAt, accountAgesS, List.filterMap_cons] at ih ⊢
      rw [ih m]

theorem addLateAt_map_type (d : ℤ) (n : ℕ) (accounts : List Account) :
    (addLateAt d n accounts).map (fun a => a.type) = accounts.map (fun a => a.type) := by
  induction accounts generalizing n with
  | nil => simp [addLateAt]
  | cons a rest ih =>
    cases n with
    | zero => simp [addLateAt]
    | succ m => simp [addLateAt, ih m]

theorem mixSizeS_addLateAt (d : ℤ) (n : ℕ) (accounts : List Account) :
    mixSizeS (addLateAt d n accounts) = mixSizeS accounts := by
  unfold mixSizeS
  rw [addLateAt_map_type]

theorem utilizationStep_mono (b1 b2 u l : ℚ) (h : b1 ≤ b2) :
    utilizationStep b1 u l ≤ utilizationStep b2 u l := by
  unfold utilizationStep
  dsimp only
  split_ifs <;> linarith

theorem ageStep_mono (b1 b2 : ℚ) (ages : List ℚ) (h : b1 ≤ b2) :
    ageStep b1 ages ≤ ageStep b2 ages := by
  unfold ageStep
  dsimp only
  split_ifs <;> linarith

theorem mixStep_mono (b1 b2 : ℚ) (m : ℕ) (h : b1 ≤ b2) :
    mixStep b1 m ≤ mixStep b2 m := by
  unfold mixStep
  split_ifs <;> linarith

theorem inquiryStep_mono (b1 b2 : ℚ) (r : ℕ) (h : b1 ≤ b2) :
    inquiryStep b1 r ≤ inquiryStep b2 r := by
  unfold inquiryStep
  split_ifs <;> linarith

theorem scoreBody_mono (b1 b2 : ℚ) (u l : ℚ) (ages : List ℚ) (m r : ℕ)
    (h : b1 ≤ b2) : scoreBody b1 u l ages m r ≤ scoreBody b2 u l ages m r := by
  unfold scoreBody
  exact inquiryStep_mono _ _ _ (mixStep_mono _ _ _ (ageStep_mono _ _ _
    (utilizationStep_mono _ _ _ _ h)))

theorem scoreAfterLate_succ_le (late : ℕ) :
    scoreAfterLate (late + 1) ≤ scoreAfterLate late := by
  cases late with
  | zero => norm_num [scoreAfterLate]
  | succ m =>
    simp only [scoreAfterLate, if_pos (Nat.succ_pos (m + 1)), if_pos (Nat.succ_pos m)]
    push_cast
    linarith

/-- C8: adding one late payment event (with a recorded date and
`onTime = false`) to any account, holding everything else and the current
date fixed, never increases the final clamped score. -/
theorem c8_late_payment_monotone (now : ℤ) (accounts : List Account)
    (inquiries : List Inquiry) (n : ℕ) (d : ℤ) (h : n < accounts.length) :
    calculateScore now (addLateAt d n accounts) inquiries ≤
      calculateScore now accounts inquiries := by
  unfold calculateScore
  rw [latePaymentsS_addLateAt d n accounts h, utilizationSumS_addLateAt,
    limitSumS_addLateAt, accountAgesS_addLateAt, mixSizeS_addLateAt]
  have h1 : scoreAfterLate (latePaymentsS accounts + 1) ≤
      scoreAfterLate (latePaymentsS accounts) := scoreAfterLate_succ_le _
  have h2 : scoreBody (scoreAfterLate (latePaymentsS accounts + 1))
        (utilizationSumS accounts) (limitSumS accounts) (accountAgesS now accounts)
        (mixSizeS accounts) (recentInquiriesS now inquiries) ≤
      scoreBody (scoreAfterLate (latePaymentsS accounts))
        (utilizationSumS accounts) (limitSumS accounts) (accountAgesS now accounts)
        (mixSizeS accounts) (recentInquiriesS now inquiries) :=
    scoreBody_mono _ _ _ _ _ _ _ h1
  have h3 : jsRound (scoreBody (scoreAfterLate (latePaymentsS accounts + 1))
        (utilizationSumS accounts) (limitSumS accounts) (accountAgesS now accounts)
        (mixSizeS accounts) (recentInquiriesS now inquiries)) ≤
      jsRound (scoreBody (scoreAfterLate (latePaymentsS accounts))
        (utilizationSumS accounts) (limitSumS accounts) (accountAgesS now accounts)
        (mixSizeS accounts) (recentInquiriesS now inquiries)) :=
    Int.floor_le_floor (by linarith)
  exact max_le_max le_rfl (min_le_min le_rfl h3)

/-- Witness for C8: adding a late payment to the single account of a concrete
input does not increase the score. -/
theorem c8_late_payment_monotone_witness :
    0 < ([acctUtil60] : List Account).length ∧
    calculateScore 0 (addLateAt 5 0 [acctUtil60]) [] ≤ calculateScore 0 [acctUtil60] [] :=
  ⟨by norm_num, c8_late_payment_monotone 0 [acctUtil60] [] 0 5 (by norm_num)⟩

/- ===== C9: Tax Regime Comparator =====
The backend tax engine is code of this repository that is not under src/
(only its frontend callers are), so this component is modelled from the
spec (sections 3 and 4.1). -/

/-- Modelled from the spec: the two mutually exclusive tax regimes of the
missing backend comparator. -/
inductive Regime where
  | old
  | new
deriving DecidableEq, Repr

/-- Modelled from the spec: `TaxProfile` = gross income plus a mapping of
deduction-code to claimed Money amount (Money as ℚ). -/
structure TaxProfile where
  gross_income : ℚ
  deduction_claims : List (String × ℚ)
deriving DecidableEq, Repr

/-- Modelled from the spec: `RegimeResult` of the missing backend comparator. -/
structure RegimeResult where
  taxable_income : ℚ
  tax_payable : ℚ
  deductions_claimed : ℚ
deriving DecidableEq, Repr

/-- Modelled from the spec: `TaxComparison` of the missing backend comparator. -/
structure TaxComparison where
  old_regime : RegimeResult
  new_regime : RegimeResult
  recommended_regime : Regime
  savings : ℚ
  advance_tax_schedule : List ℚ
deriving DecidableEq, Repr

/-- Modelled from the spec: a progressive slab `[lower_bound, upper_bound,
marginal_rate)`. -/
structure Slab where
  lower : ℚ
  upper : ℚ
  rate : ℚ
deriving DecidableEq, Repr

/-- Modelled from the spec: the slice of taxable income `ti` falling in one
slab, taxed at the slab's marginal rate. -/
def slabAmount (ti : ℚ) (s : Slab) : ℚ :=
  max 0 (min ti s.upper - s.lower) * s.rate

/-- Modelled from the spec: base tax of a progressive slab table. -/
def slabTax (slabs : List Slab) (ti : ℚ) : ℚ :=
  (slabs.map (slabAmount ti)).sum

/-- Modelled from the spec: old-regime slab table (representative statutory
boundaries; the top slab's upper bound is an effectively unbounded sentinel). -/
def oldSlabs : List Slab :=
  [⟨0, 250000, 0⟩, ⟨250000, 500000, 1/20⟩, ⟨500000, 1000000, 1/5⟩,
   ⟨1000000, 10 ^ 15, 3/10⟩]

/-- Modelled from the spec: new-regime slab table. -/
def newSlabs : List Slab :=
  [⟨0, 300000, 0⟩, ⟨300000, 600000, 1/20⟩, ⟨600000, 900000, 1/10⟩,
   ⟨900000, 1200000, 3/20⟩, ⟨1200000, 1500000, 1/5⟩, ⟨1500000, 10 ^ 15, 3/10⟩]

/-- Modelled from the spec: statutory surcharge/cess percentage (4%). -/
def cessRate : ℚ := 1/25

/-- Modelled from the spec: per-code statutory deduction ceilings
(examples given in the spec: 150,000, 100,000, 200,000). -/
def deductionCeiling : String → ℚ
  | "80C" => 150000
  | "80D" => 100000
  | "24B" => 200000
  | _ => 150000

/-- Modelled from the spec: old-regime deductions — every claim is silently
clamped at its per-code ceiling and summed. -/
def oldRegimeDeductions (p : TaxProfile) : ℚ :=
  (p.deduction_claims.map (fun c => min c.2 (deductionCeiling c.1))).sum

/-- Modelled from the spec: one regime's result — taxable income = gross
income minus the regime's deductions, base slab tax plus cess, rounded to
the nearest currency unit only at this final step. -/
def regimeResult (slabs : List Slab) (ded : ℚ) (p : TaxProfile) : RegimeResult :=
  ⟨p.gross_income - ded,
   ((jsRound (slabTax slabs (p.gross_income - ded) * (1 + cessRate)) : ℤ) : ℚ),
   ded⟩

/-- Modelled from the spec: four quarterly advance-tax increments from the
cumulative statutory percentages 15%, 45%, 75%, 100% of annual liability. -/
def advanceSchedule (t : ℚ) : List ℚ :=
  [3/20 * t, 9/20 * t - 3/20 * t, 15/20 * t - 9/20 * t, t - 15/20 * t]

/-- Modelled from the spec: the missing backend `compareTaxRegimes` —
the new regime permits a strictly smaller deduction set (none here), the
recommended regime is the one with lower tax payable with ties broken
toward the new regime, and savings is the absolute difference. -/
def compareTaxRegimes (p : TaxProfile) : TaxComparison where
  old_regime := regimeResult oldSlabs (oldRegimeDeductions p) p
  new_regime := regimeResult newSlabs 0 p
  recommended_regime :=
    if (regimeResult newSlabs 0 p).tax_payable ≤
        (regimeResult oldSlabs (oldRegimeDeductions p) p).tax_payable
    then Regime.new else Regime.old
  savings :=
    |(regimeResult oldSlabs (oldRegimeDeductions p) p).tax_payable -
      (regimeResult newSlabs 0 p).tax_payable|
  advance_tax_schedule :=
    advanceSchedule (min (regimeResult oldSlabs (oldRegimeDeductions p) p).tax_payable
      (regimeResult newSlabs 0 p).tax_payable)

/-- Modelled from the spec: input constraints of `compare` — non-negative
gross income and non-negative deduction claims. -/
def ValidTaxProfile (p : TaxProfile) : Prop :=
  0 ≤ p.gross_income ∧ ∀ c ∈ p.deduction_claims, 0 ≤ c.2

/-- C9: for every valid `TaxProfile`, the recommended regime's tax payable
is at most the other regime's, ties are broken toward the new regime, and
savings equals the absolute difference of the two tax payables. -/
theorem c9_tax_comparison (p : TaxProfile) (hp : ValidTaxProfile p) :
    ((compareTaxRegimes p).recommended_regime = Regime.new →
      (compareTaxRegimes p).new_regime.tax_payable ≤
        (compareTaxRegimes p).old_regime.tax_payable) ∧
    ((compareTaxRegimes p).recommended_regime = Regime.old →
      (compareTaxRegimes p).old_regime.tax_payable ≤
        (compareTaxRegimes p).new_regime.tax_payable) ∧
    ((compareTaxRegimes p).old_regime.tax_payable =
        (compareTaxRegimes p).new_regime.tax_payable →
      (compareTaxRegimes p).recommended_regime = Regime.new) ∧
    (compareTaxRegimes p).savings =
      |(compareTaxRegimes p).old_regime.tax_payable -
        (compareTaxRegimes p).new_regime.tax_payable| := by
  unfold compareTaxRegimes
  by_cases h : (regimeResult newSlabs 0 p).tax_payable ≤
      (regimeResult oldSlabs (oldRegimeDeductions p) p).tax_payable
  · simp only [if_pos h]
    refine ⟨fun _ => h, ?_, fun _ => by trivial, by trivial⟩
    intro hc
    exact absurd hc (by simp)
  · simp only [if_neg h]
    refine ⟨?_, fun _ => le_of_not_le h, ?_, by trivial⟩
    · intro hc
      exact absurd hc (by simp)
    · intro he
      exact absurd (le_of_eq he.symm) h

/-- The spec's scenario profile: income 800,000 with one 150,000 claim under
the capped code. -/
def p800k : TaxProfile := ⟨800000, [("80C", 150000)]⟩

/-- Witness for C9 at the spec's scenario profile. -/
theorem c9_tax_comparison_witness :
    ValidTaxProfile p800k ∧
    (((compareTaxRegimes p800k).recommended_regime = Regime.new →
      (compareTaxRegimes p800k).new_regime.tax_payable ≤
        (compareTaxRegimes p800k).old_regime.tax_payable) ∧
    ((compareTaxRegimes p800k).recommended_regime = Regime.old →
      (compareTaxRegimes p800k).old_regime.tax_payable ≤
        (compareTaxRegimes p800k).new_regime.tax_payable) ∧
    ((compareTaxRegimes p800k).old_regime.tax_payable =
        (compareTaxRegimes p800k).new_regime.tax_payable →
      (compareTaxRegimes p800k).recommended_regime = Regime.new) ∧
    (compareTaxRegimes p800k).savings =
      |(compareTaxRegimes p800k).old_regime.tax_payable -
        (compareTaxRegimes p800k).new_regime.tax_payable|) := by
  have hv : ValidTaxProfile p800k := by
    constructor
    · norm_num [p800k]
    · intro c hc
      simp [p800k] at hc
      rw [hc]
      norm_num
  exact ⟨hv, c9_tax_comparison p800k hv⟩
